import Mathlib

/-!
Shallow embedding of `src/weather-report/src/main.rs`, a program that prints a
CSV header followed by a random number of random weather records.

The randomness capability (`rand::Rng` together with `Uniform::from`) is
modelled as an oracle: a function receiving the index of the draw (draws are
numbered in the order the program makes them) and the requested range, and
returning an integer.  Generation threads a `GenState` carrying the index of
the next draw and the trace of ranges requested so far.  A draw over an empty
range is the failure path (`Uniform::from` panics there), so every generation
function returns an `Option`, as does indexing into the station array.

Rust `f32` values: the program stores `t as f32 / 10.0` where `t` is an
integer of tenths with `|t| ≤ 10500`, and prints it with `{:.1}`.  For every
such `t` the nearest `f32` to `t/10` is within `2^-13` of it, far below the
half-tenth rounding threshold, so `{:.1}` prints exactly the decimal `t/10`
with one fractional digit.  The embedding therefore stores the integer of
tenths and renders it with `fmtTenths`, which produces that exact string.
-/

namespace Weather

/-- A range requested from the randomness capability: `lo..=hi` when
`inclusive` is true (Rust `Uniform::from(lo..=hi)`), `lo..hi` when false
(Rust `Uniform::from(lo..hi)`). -/
structure RandRange where
  lo : Int
  hi : Int
  inclusive : Bool
deriving DecidableEq, Repr

/-- Largest value the range can produce: `hi` for an inclusive range,
`hi - 1` for a half-open one. -/
def RandRange.upper (r : RandRange) : Int :=
  if r.inclusive then r.hi else r.hi - 1

/-- The randomness capability: the value of draw number `k` when the
requested range is `r`. -/
def Oracle : Type := Nat → RandRange → Int

/-- An oracle respecting the sampling contract: on every nonempty range the
returned value lies within the range. -/
def Oracle.Valid (g : Oracle) : Prop :=
  ∀ k r, r.lo ≤ r.upper → r.lo ≤ g k r ∧ g k r ≤ r.upper

/-- Oracle that always returns the minimum of the requested range. -/
def minOracle : Oracle := fun _ r => r.lo

/-- Oracle that always returns the maximum of the requested range. -/
def maxOracle : Oracle := fun _ r => r.upper

/-- Generation state: index of the next draw and the trace of ranges
requested so far, in order. -/
structure GenState where
  k : Nat
  trace : List RandRange
deriving DecidableEq, Repr

/-- State at program start: no draw has been made. -/
def initState : GenState := ⟨0, []⟩

/-- One call to `Uniform::from(range).sample(rng)`: fails (Rust panics) on an
empty range, otherwise consumes one draw from the oracle and records the
request. -/
def drawOpt (g : Oracle) (r : RandRange) (s : GenState) : Option (Int × GenState) :=
  if r.lo ≤ r.upper then some (g s.k r, ⟨s.k + 1, s.trace ++ [r]⟩) else none

/-- The five stations of the `StationType` enum. -/
inductive StationType where
  | StationA
  | StationB
  | StationC
  | StationD
  | StationE
deriving DecidableEq, Repr

/-- Rust `StationType::to_string`. -/
def StationType.toString : StationType → String
  | .StationA => "StationA"
  | .StationB => "StationB"
  | .StationC => "StationC"
  | .StationD => "StationD"
  | .StationE => "StationE"

/-- Rust `StationType::all`, the five-element station array. -/
def StationType.all : List StationType :=
  [.StationA, .StationB, .StationC, .StationD, .StationE]

/-- Rust array indexing `stations[idx]` with `idx` drawn as an integer:
out-of-bounds (or negative, unrepresentable in `usize`) is the panic path. -/
def stationIndex (i : Int) : Option StationType :=
  if 0 ≤ i then StationType.all.get? i.toNat else none

/-- The `WeatherRecord` struct.  `temperature` and `pressure` hold the drawn
integer of tenths; the Rust struct stores `t as f32 / 10.0`, rendered back to
the same decimal by `{:.1}` (see the header comment). -/
structure WeatherRecord where
  date : String
  station : StationType
  temperature : Int
  pressure : Int
deriving DecidableEq, Repr

/-- Decimal digits of `n`, zero-padded on the left to `w` characters, as in
Rust `{:0w}` for a nonnegative number. -/
def padNat (w : Nat) (n : Nat) : String :=
  String.mk (List.replicate (w - (Nat.repr n).data.length) '0') ++ Nat.repr n

/-- Rust `{:0w}` formatting of an integer: the sign, when present, counts
toward the width. -/
def padInt (w : Nat) (x : Int) : String :=
  if x < 0 then "-" ++ padNat (w - 1) x.natAbs else padNat w x.toNat

/-- Rust `format!("{year:04}-{month:02}-{day:02}")`. -/
def fmtDate (year month day : Int) : String :=
  padInt 4 year ++ "-" ++ padInt 2 month ++ "-" ++ padInt 2 day

/-- Rust `{:.1}` rendering of `t as f32 / 10.0` for an integer `t` of tenths
(exact for `|t| ≤ 10500`, the only values the program produces): sign, then
the integer part `|t| / 10`, a point, and the single fractional digit
`|t| % 10`. -/
def fmtTenths (t : Int) : String :=
  (if t < 0 then "-" else "") ++ Nat.repr (t.natAbs / 10) ++ "." ++ Nat.repr (t.natAbs % 10)

/-- Rust `WeatherRecord::to_csv_line`:
`format!("{},{},{:.1},{:.1}", date, station.to_string(), temperature, pressure)`. -/
def WeatherRecord.to_csv_line (r : WeatherRecord) : String :=
  r.date ++ "," ++ r.station.toString ++ "," ++ fmtTenths r.temperature ++ "," ++ fmtTenths r.pressure

/-- The `max_day` match in `generate_random_date`, fallback arm included. -/
def maxDay (month : Int) : Int :=
  if month = 1 ∨ month = 3 ∨ month = 5 ∨ month = 7 ∨ month = 8 ∨ month = 10 ∨ month = 12 then 31
  else if month = 4 ∨ month = 6 ∨ month = 9 ∨ month = 11 then 30
  else if month = 2 then 28
  else 30

/-- The `max_day` match with the listed arms only: `none` means the `_ => 30`
fallback arm would be taken. -/
def maxDayListed (month : Int) : Option Int :=
  if month = 1 ∨ month = 3 ∨ month = 5 ∨ month = 7 ∨ month = 8 ∨ month = 10 ∨ month = 12 then some 31
  else if month = 4 ∨ month = 6 ∨ month = 9 ∨ month = 11 then some 30
  else if month = 2 then some 28
  else none

/-- Range of the record-count draw `Uniform::from(10..=20)`. -/
def countReq : RandRange := ⟨10, 20, true⟩
/-- Range of the station-index draw `Uniform::from(0..stations.len())`. -/
def idxReq : RandRange := ⟨0, 5, false⟩
/-- Range of the temperature draw `Uniform::from(-100..=400)`. -/
def tempReq : RandRange := ⟨-100, 400, true⟩
/-- Range of the pressure draw `Uniform::from(9800..=10500)`. -/
def pressReq : RandRange := ⟨9800, 10500, true⟩
/-- Range of the year draw `Uniform::from(2020..=2025)`. -/
def yearReq : RandRange := ⟨2020, 2025, true⟩
/-- Range of the month draw `Uniform::from(1..=12)`. -/
def monthReq : RandRange := ⟨1, 12, true⟩
/-- Range of the day draw `Uniform::from(1..=max_day)`. -/
def dayReq (dm : Int) : RandRange := ⟨1, dm, true⟩

/-- Rust `generate_random_date`: year, then month, then day bounded by `max_day`,
formatted `YYYY-MM-DD`. -/
def generate_random_date (g : Oracle) (s : GenState) : Option (String × GenState) :=
  match drawOpt g yearReq s with
  | none => none
  | some (year, s1) =>
    match drawOpt g monthReq s1 with
    | none => none
    | some (month, s2) =>
      match drawOpt g (dayReq (maxDay month)) s2 with
      | none => none
      | some (day, s3) => some (fmtDate year month day, s3)

/-- Rust `generate_weather_record`: station index (a half-open draw, then array
indexing), temperature, pressure, and last the date. -/
def generate_weather_record (g : Oracle) (s : GenState) : Option (WeatherRecord × GenState) :=
  match drawOpt g idxReq s with
  | none => none
  | some (idx, s1) =>
    match stationIndex idx with
    | none => none
    | some station =>
      match drawOpt g tempReq s1 with
      | none => none
      | some (temperature, s2) =>
        match drawOpt g pressReq s2 with
        | none => none
        | some (pressure, s3) =>
          match generate_random_date g s3 with
          | none => none
          | some (date, s4) => some (⟨date, station, temperature, pressure⟩, s4)

/-- The `for _ in 0..n` loop body of `main`: generates `n` records and
collects their CSV lines in print order. -/
def genRecords (g : Oracle) : Nat → GenState → Option (List String × GenState)
  | 0, s => some ([], s)
  | n + 1, s =>
    match generate_weather_record g s with
    | none => none
    | some (w, s1) =>
      match genRecords g n s1 with
      | none => none
      | some (rest, s2) => some (w.to_csv_line :: rest, s2)

/-- The fixed header line printed by `main`. -/
def header : String := "Date,Station,Temperature,Pressure"

/-- Rust `main`: prints the header, draws the record count `n` from `10..=20`, and
prints `n` CSV lines.  Returns the full list of printed lines together with
the final generation state.  (`n.toNat`: Rust `0..n` is empty for `n ≤ 0`.) -/
def mainRun (g : Oracle) : Option (List String × GenState) :=
  match drawOpt g countReq initState with
  | none => none
  | some (n, s) =>
    match genRecords g n.toNat s with
    | none => none
    | some (lines, s1) => some (header :: lines, s1)


/-! ## Characterization lemmas -/

/-- On a nonempty range a draw succeeds, returns the oracle's value for the
current draw index, advances the index and records the request. -/
theorem drawOpt_eq (g : Oracle) (r : RandRange) (s : GenState) (h : r.lo ≤ r.upper) :
    drawOpt g r s = some (g s.k r, ⟨s.k + 1, s.trace ++ [r]⟩) := if_pos h

/-- Every value of the `max_day` table, fallback arm included, is at least 28. -/
theorem maxDay_ge (m : Int) : 28 ≤ maxDay m := by
  unfold maxDay; split_ifs <;> norm_num

/-- Every value of the `max_day` table, fallback arm included, is at most 31. -/
theorem maxDay_le (m : Int) : maxDay m ≤ 31 := by
  unfold maxDay; split_ifs <;> norm_num

/-- Indexing the five-element station array succeeds for indices 0 to 4. -/
theorem stationIndex_isSome (i : Int) (h0 : 0 ≤ i) (h4 : i ≤ 4) :
    ∃ st, stationIndex i = some st := by
  interval_cases i <;> exact ⟨_, rfl⟩

/-- What a run of `generate_random_date` looks like under any oracle that
respects the sampling contract: three draws (year, month, day in that order),
the result formatted from in-range components. -/
theorem date_spec (g : Oracle) (hg : Oracle.Valid g) (s : GenState) :
    ∃ y m d,
      generate_random_date g s =
        some (fmtDate y m d,
          ⟨s.k + 3, s.trace ++ [yearReq, monthReq, dayReq (maxDay m)]⟩) ∧
      2020 ≤ y ∧ y ≤ 2025 ∧ 1 ≤ m ∧ m ≤ 12 ∧ 1 ≤ d ∧ d ≤ maxDay m := by
  have hy := hg s.k yearReq (by decide)
  have hm := hg (s.k + 1) monthReq (by decide)
  have hday : (dayReq (maxDay (g (s.k + 1) monthReq))).lo ≤
      (dayReq (maxDay (g (s.k + 1) monthReq))).upper := by
    have := maxDay_ge (g (s.k + 1) monthReq)
    simp only [dayReq, RandRange.upper]
    norm_num
    linarith
  have hd := hg (s.k + 2) _ hday
  refine ⟨g s.k yearReq, g (s.k + 1) monthReq,
    g (s.k + 2) (dayReq (maxDay (g (s.k + 1) monthReq))),
    ?_, hy.1, hy.2, hm.1, hm.2, ?_, ?_⟩
  · simp only [generate_random_date]
    rw [drawOpt_eq g yearReq s (by decide)]
    simp only
    rw [drawOpt_eq g monthReq _ (by decide)]
    simp only
    rw [drawOpt_eq g _ _ hday]
    simp only
    simp [List.append_assoc]
  · exact hd.1
  · simpa [dayReq, RandRange.upper] using hd.2

/-- The six ranges one record requests, in the order the draws happen. -/
def recReqs (dm : Int) : List RandRange :=
  [idxReq, tempReq, pressReq, yearReq, monthReq, dayReq dm]

/-- What a run of `generate_weather_record` looks like under any oracle that
respects the sampling contract: six draws in the order station index,
temperature, pressure, year, month, day, all components in range. -/
theorem record_spec (g : Oracle) (hg : Oracle.Valid g) (s : GenState) :
    ∃ st t p y m d,
      generate_weather_record g s =
        some (⟨fmtDate y m d, st, t, p⟩,
          ⟨s.k + 6, s.trace ++ recReqs (maxDay m)⟩) ∧
      -100 ≤ t ∧ t ≤ 400 ∧ 9800 ≤ p ∧ p ≤ 10500 ∧
      2020 ≤ y ∧ y ≤ 2025 ∧ 1 ≤ m ∧ m ≤ 12 ∧ 1 ≤ d ∧ d ≤ maxDay m := by
  have hi := hg s.k idxReq (by decide)
  obtain ⟨st, hst⟩ := stationIndex_isSome (g s.k idxReq) hi.1
    (by simpa [idxReq, RandRange.upper] using hi.2)
  have ht := hg (s.k + 1) tempReq (by decide)
  have hp := hg (s.k + 2) pressReq (by decide)
  obtain ⟨y, m, d, hdate, hy1, hy2, hm1, hm2, hd1, hd2⟩ :=
    date_spec g hg ⟨s.k + 3, s.trace ++ [idxReq, tempReq, pressReq]⟩
  refine ⟨st, g (s.k + 1) tempReq, g (s.k + 2) pressReq, y, m, d, ?_,
    ht.1, ht.2, hp.1, hp.2, hy1, hy2, hm1, hm2, hd1, hd2⟩
  simp only [generate_weather_record]
  rw [drawOpt_eq g idxReq s (by decide)]
  simp only
  rw [hst]
  rw [drawOpt_eq g tempReq _ (by decide)]
  simp only
  rw [drawOpt_eq g pressReq _ (by decide)]
  simp only
  have : (⟨s.k + 1 + 1 + 1, (s.trace ++ [idxReq]) ++ [tempReq] ++ [pressReq]⟩ : GenState) =
      ⟨s.k + 3, s.trace ++ [idxReq, tempReq, pressReq]⟩ := by
    simp [List.append_assoc]
  rw [this, hdate]
  simp [recReqs, List.append_assoc]

/-- A CSV line produced from in-range components the way the generator
produces it. -/
def GoodLine (l : String) : Prop :=
  ∃ y m d st t p,
    2020 ≤ y ∧ y ≤ 2025 ∧ 1 ≤ m ∧ m ≤ 12 ∧ 1 ≤ d ∧ d ≤ maxDay m ∧
    -100 ≤ t ∧ t ≤ 400 ∧ 9800 ≤ p ∧ p ≤ 10500 ∧
    l = WeatherRecord.to_csv_line ⟨fmtDate y m d, st, t, p⟩

/-- What the record loop of `main` does under any oracle that respects the
sampling contract: it succeeds, produces one line per requested record, and
requests exactly six ranges per record. -/
theorem genRecords_spec (g : Oracle) (hg : Oracle.Valid g) :
    ∀ (n : Nat) (s : GenState),
      ∃ (out : List String) (s2 : GenState) (ms : List Int),
        genRecords g n s = some (out, s2) ∧
        out.length = n ∧
        s2.k = s.k + 6 * n ∧
        ms.length = n ∧ (∀ m ∈ ms, 1 ≤ m ∧ m ≤ 12) ∧
        s2.trace = s.trace ++ (ms.map fun m => recReqs (maxDay m)).flatten ∧
        ∀ l ∈ out, GoodLine l := by
  intro n
  induction n with
  | zero =>
    intro s
    exact ⟨[], s, [], rfl, rfl, by omega, rfl, by simp, by simp, by simp⟩
  | succ n ih =>
    intro s
    obtain ⟨st, t, p, y, m, d, hrec, ht1, ht2, hp1, hp2, hy1, hy2, hm1, hm2, hd1, hd2⟩ :=
      record_spec g hg s
    obtain ⟨out, s2, ms, hgen, hlen, hk, hmslen, hmsvals, htrace, hgood⟩ :=
      ih ⟨s.k + 6, s.trace ++ recReqs (maxDay m)⟩
    refine ⟨WeatherRecord.to_csv_line ⟨fmtDate y m d, st, t, p⟩ :: out, s2, m :: ms,
      ?_, by simp [hlen], by simp at hk; omega, by simp [hmslen], ?_, ?_, ?_⟩
    · simp only [genRecords]
      rw [hrec]
      simp only
      rw [hgen]
    · intro x hx
      rcases List.mem_cons.mp hx with h | h
      · exact h ▸ ⟨hm1, hm2⟩
      · exact hmsvals x h
    · rw [htrace]; simp [List.append_assoc]
    · intro l hl
      rcases List.mem_cons.mp hl with h | h
      · exact h ▸ ⟨y, m, d, st, t, p, hy1, hy2, hm1, hm2, hd1, hd2,
          ht1, ht2, hp1, hp2, rfl⟩
      · exact hgood l h

/-- What `main` does under any oracle that respects the sampling contract:
header first, then one line per record; the record count is the first draw,
over `10..=20`. -/
theorem mainRun_spec (g : Oracle) (hg : Oracle.Valid g) :
    ∃ (lines : List String) (s2 : GenState) (ms : List Int),
      mainRun g = some (header :: lines, s2) ∧
      10 ≤ g 0 countReq ∧ g 0 countReq ≤ 20 ∧
      lines.length = (g 0 countReq).toNat ∧
      ms.length = (g 0 countReq).toNat ∧ (∀ m ∈ ms, 1 ≤ m ∧ m ≤ 12) ∧
      s2.trace = countReq :: (ms.map fun m => recReqs (maxDay m)).flatten ∧
      ∀ l ∈ lines, GoodLine l := by
  have hn := hg 0 countReq (by decide)
  obtain ⟨out, s2, ms, hgen, hlen, hk, hmslen, hmsvals, htrace, hgood⟩ :=
    genRecords_spec g hg (g 0 countReq).toNat ⟨1, [countReq]⟩
  refine ⟨out, s2, ms, ?_, hn.1, by simpa [countReq, RandRange.upper] using hn.2,
    hlen, hmslen, hmsvals, by simpa using htrace, hgood⟩
  simp only [mainRun]
  rw [drawOpt_eq g countReq initState (by decide)]
  simp only [initState]
  rw [show ((⟨0 + 1, [] ++ [countReq]⟩ : GenState)) = ⟨1, [countReq]⟩ by simp]
  rw [hgen]

/-! ## The data-line format -/

/-- A decimal digit character, the `\\d` of the format pattern. -/
def isDigitChar (c : Char) : Prop := '0' ≤ c ∧ c ≤ '9'

instance (c : Char) : Decidable (isDigitChar c) := by
  unfold isDigitChar; infer_instance

/-- The anchored pattern
`\\d{4}-\\d{2}-\\d{2},Station[A-E],-?\\d+\\.\\d,\\d+\\.\\d` of the spec,
stated as the existence of a decomposition of the line. -/
def matchesPattern (l : String) : Prop :=
  ∃ (d1 d2 d3 : List Char) (stc : Char) (sign ip : List Char) (fd : Char)
    (pip : List Char) (pfd : Char),
    l.data = d1 ++ ['-'] ++ d2 ++ ['-'] ++ d3 ++ [','] ++ "Station".data ++ [stc] ++ [','] ++
      sign ++ ip ++ ['.'] ++ [fd] ++ [','] ++ pip ++ ['.'] ++ [pfd] ∧
    d1.length = 4 ∧ (∀ c ∈ d1, isDigitChar c) ∧
    d2.length = 2 ∧ (∀ c ∈ d2, isDigitChar c) ∧
    d3.length = 2 ∧ (∀ c ∈ d3, isDigitChar c) ∧
    stc ∈ ['A', 'B', 'C', 'D', 'E'] ∧
    (sign = [] ∨ sign = ['-']) ∧
    ip ≠ [] ∧ (∀ c ∈ ip, isDigitChar c) ∧ isDigitChar fd ∧
    pip ≠ [] ∧ (∀ c ∈ pip, isDigitChar c) ∧ isDigitChar pfd

set_option maxRecDepth 4000 in
/-- The decimal rendering of every number up to 1050 (the largest integer
part the program prints) is a nonempty string of digit characters. -/
theorem reprDigits (n : Nat) (h : n < 1051) :
    (Nat.repr n).data ≠ [] ∧ ∀ c ∈ (Nat.repr n).data, isDigitChar c := by
  revert h; revert n; decide

/-- Years 2020 to 2025 format under `{:04}` as four digit characters. -/
theorem pad4_year (y : Int) (h1 : 2020 ≤ y) (h2 : y ≤ 2025) :
    (padInt 4 y).data.length = 4 ∧ ∀ c ∈ (padInt 4 y).data, isDigitChar c := by
  interval_cases y <;> exact by decide

/-- Months and days (1 to 31) format under `{:02}` as two digit characters. -/
theorem pad2_small (x : Int) (h1 : 1 ≤ x) (h2 : x ≤ 31) :
    (padInt 2 x).data.length = 2 ∧ ∀ c ∈ (padInt 2 x).data, isDigitChar c := by
  interval_cases x <;> exact by decide

/-- The decimal rendering of a number below ten is its single digit character. -/
theorem singleDigit (n : Nat) (h : n < 10) :
    (Nat.repr n).data = [Nat.digitChar n] ∧ isDigitChar (Nat.digitChar n) := by
  revert h; revert n; decide

/-- Every station name is the text `Station` followed by one of the letters
`A` to `E`. -/
theorem station_data (st : StationType) :
    ∃ c, (StationType.toString st).data = "Station".data ++ [c] ∧
      c ∈ ['A', 'B', 'C', 'D', 'E'] := by
  cases st with
  | StationA => exact ⟨'A', by decide, by decide⟩
  | StationB => exact ⟨'B', by decide, by decide⟩
  | StationC => exact ⟨'C', by decide, by decide⟩
  | StationD => exact ⟨'D', by decide, by decide⟩
  | StationE => exact ⟨'E', by decide, by decide⟩

/-- Character content of the one-character separator string. -/
theorem commaData : ("," : String).data = [','] := rfl

/-- A tenths value in the printable range renders as an optional minus sign,
a nonempty run of digits, a point, and one digit. -/
theorem fmtTenths_pattern (t : Int) (h1 : -10500 ≤ t) (h2 : t ≤ 10500) :
    ∃ (ip : List Char) (fd : Char),
      (fmtTenths t).data = (if t < 0 then ['-'] else []) ++ ip ++ ['.'] ++ [fd] ∧
      ip ≠ [] ∧ (∀ c ∈ ip, isDigitChar c) ∧ isDigitChar fd := by
  have hq : t.natAbs / 10 < 1051 := by omega
  obtain ⟨hne, hdig⟩ := reprDigits (t.natAbs / 10) hq
  have hr : t.natAbs % 10 < 10 := Nat.mod_lt _ (by norm_num)
  obtain ⟨hfd, hfdd⟩ := singleDigit (t.natAbs % 10) hr
  refine ⟨(Nat.repr (t.natAbs / 10)).data, Nat.digitChar (t.natAbs % 10),
    ?_, hne, hdig, hfdd⟩
  by_cases hneg : t < 0 <;>
    simp [fmtTenths, hneg, String.data_append, hfd]

/-- Every line the generator can produce from in-range components matches
the spec's data-line pattern. -/
theorem goodLine_matches (l : String) (h : GoodLine l) : matchesPattern l := by
  obtain ⟨y, m, d, st, t, p, hy1, hy2, hm1, hm2, hd1, hd2, ht1, ht2, hp1, hp2, hl⟩ := h
  obtain ⟨c, hst, hstc⟩ := station_data st
  obtain ⟨ip, fd, htd, hipne, hipd, hfdd⟩ := fmtTenths_pattern t (by omega) (by omega)
  obtain ⟨pip, pfd, hpd, hpipne, hpipd, hpfdd⟩ := fmtTenths_pattern p (by omega) (by omega)
  have hpnn : ¬ p < 0 := by omega
  rw [if_neg hpnn] at hpd
  obtain ⟨hy4, hyd⟩ := pad4_year y hy1 hy2
  obtain ⟨hm2l, hmd⟩ := pad2_small m hm1 (by omega)
  obtain ⟨hd2l, hdd⟩ := pad2_small d hd1 (by linarith [maxDay_le m])
  refine ⟨(padInt 4 y).data, (padInt 2 m).data, (padInt 2 d).data, c,
    (if t < 0 then ['-'] else []), ip, fd, pip, pfd,
    ?_, hy4, hyd, hm2l, hmd, hd2l, hdd, hstc, ?_, hipne, hipd, hfdd,
    hpipne, hpipd, hpfdd⟩
  · subst hl
    simp [WeatherRecord.to_csv_line, fmtDate, String.data_append, hst, htd, hpd,
      commaData, List.append_assoc]
  · by_cases hneg : t < 0 <;> simp [hneg]

/-! ## Validity of the two scenario oracles -/

/-- The all-minimum oracle respects the sampling contract. -/
theorem minOracle_valid : Oracle.Valid minOracle := fun _ _ h => ⟨le_refl _, h⟩

/-- The all-maximum oracle respects the sampling contract. -/
theorem maxOracle_valid : Oracle.Valid maxOracle := fun _ _ h => ⟨h, le_refl _⟩

/-! ## The claims -/

/-- Claim C1: with a randomness capability that always returns the minimum of
any requested range, the program prints exactly 10 data lines after the
header, each equal to `2020-01-01,StationA,-10.0,980.0`. -/
theorem claim1_min_oracle_output (g : Oracle) (h : ∀ k r, g k r = r.lo) :
    (mainRun g).map Prod.fst =
      some (header :: List.replicate 10 "2020-01-01,StationA,-10.0,980.0") := by
  have hg : g = minOracle := funext fun k => funext fun r => h k r
  subst hg
  decide

theorem claim1_witness :
    (mainRun minOracle).map Prod.fst =
      some (header :: List.replicate 10 "2020-01-01,StationA,-10.0,980.0") :=
  claim1_min_oracle_output minOracle (fun _ _ => rfl)

/-- Claim C2: with a randomness capability that always returns the maximum of
any requested range, the program prints exactly 20 data lines after the
header, each equal to `2025-12-31,StationE,40.0,1050.0`. -/
theorem claim2_max_oracle_output (g : Oracle) (h : ∀ k r, g k r = r.upper) :
    (mainRun g).map Prod.fst =
      some (header :: List.replicate 20 "2025-12-31,StationE,40.0,1050.0") := by
  have hg : g = maxOracle := funext fun k => funext fun r => h k r
  subst hg
  decide

theorem claim2_witness :
    (mainRun maxOracle).map Prod.fst =
      some (header :: List.replicate 20 "2025-12-31,StationE,40.0,1050.0") :=
  claim2_max_oracle_output maxOracle (fun _ _ => rfl)

/-- Claim C3: under any oracle respecting the sampling contract,
`generate_random_date` produces a date whose year is in [2020, 2025], month
in [1, 12] and day in [1, max_day month], and never a date with month 2 and
day above 28 (no leap day, even for 2024). -/
theorem claim3_date_components_in_range (g : Oracle) (hg : Oracle.Valid g) (s : GenState) :
    ∃ y m d s2,
      generate_random_date g s = some (fmtDate y m d, s2) ∧
      2020 ≤ y ∧ y ≤ 2025 ∧ 1 ≤ m ∧ m ≤ 12 ∧ 1 ≤ d ∧ d ≤ maxDay m ∧
      ¬(m = 2 ∧ 28 < d) := by
  obtain ⟨y, m, d, heq, hy1, hy2, hm1, hm2, hd1, hd2⟩ := date_spec g hg s
  refine ⟨y, m, d, _, heq, hy1, hy2, hm1, hm2, hd1, hd2, ?_⟩
  rintro ⟨rfl, hgt⟩
  have h28 : maxDay 2 = 28 := by decide
  omega

theorem claim3_witness :
    ∃ y m d s2,
      generate_random_date minOracle initState = some (fmtDate y m d, s2) ∧
      2020 ≤ y ∧ y ≤ 2025 ∧ 1 ≤ m ∧ m ≤ 12 ∧ 1 ≤ d ∧ d ≤ maxDay m ∧
      ¬(m = 2 ∧ 28 < d) :=
  claim3_date_components_in_range minOracle minOracle_valid initState

/-- Claim C4: under any oracle respecting the sampling contract, every record
carries a temperature drawn as an integer of tenths in [-100, 400] and a
pressure drawn as an integer of tenths in [9800, 10500]; the corresponding
values divided by 10 lie in [-10, 40] and [980, 1050], and multiplying each
value back by 10 recovers the drawn integer (one-decimal resolution). -/
theorem claim4_tenths_resolution (g : Oracle) (hg : Oracle.Valid g) (s : GenState) :
    ∃ w s2,
      generate_weather_record g s = some (w, s2) ∧
      -100 ≤ w.temperature ∧ w.temperature ≤ 400 ∧
      9800 ≤ w.pressure ∧ w.pressure ≤ 10500 ∧
      (-10 : ℚ) ≤ (w.temperature : ℚ) / 10 ∧ (w.temperature : ℚ) / 10 ≤ 40 ∧
      (980 : ℚ) ≤ (w.pressure : ℚ) / 10 ∧ (w.pressure : ℚ) / 10 ≤ 1050 ∧
      (w.temperature : ℚ) / 10 * 10 = (w.temperature : ℚ) ∧
      (w.pressure : ℚ) / 10 * 10 = (w.pressure : ℚ) := by
  obtain ⟨st, t, p, y, m, d, heq, ht1, ht2, hp1, hp2, _, _, _, _, _, _⟩ :=
    record_spec g hg s
  have ht1q : (-100 : ℚ) ≤ (t : ℚ) := by exact_mod_cast ht1
  have ht2q : (t : ℚ) ≤ 400 := by exact_mod_cast ht2
  have hp1q : (9800 : ℚ) ≤ (p : ℚ) := by exact_mod_cast hp1
  have hp2q : (p : ℚ) ≤ 10500 := by exact_mod_cast hp2
  exact ⟨⟨fmtDate y m d, st, t, p⟩, _, heq, ht1, ht2, hp1, hp2,
    by dsimp only; linarith, by dsimp only; linarith,
    by dsimp only; linarith, by dsimp only; linarith,
    by dsimp only; field_simp, by dsimp only; field_simp⟩

theorem claim4_witness :
    ∃ w s2,
      generate_weather_record minOracle initState = some (w, s2) ∧
      -100 ≤ w.temperature ∧ w.temperature ≤ 400 ∧
      9800 ≤ w.pressure ∧ w.pressure ≤ 10500 ∧
      (-10 : ℚ) ≤ (w.temperature : ℚ) / 10 ∧ (w.temperature : ℚ) / 10 ≤ 40 ∧
      (980 : ℚ) ≤ (w.pressure : ℚ) / 10 ∧ (w.pressure : ℚ) / 10 ≤ 1050 ∧
      (w.temperature : ℚ) / 10 * 10 = (w.temperature : ℚ) ∧
      (w.pressure : ℚ) / 10 * 10 = (w.pressure : ℚ) :=
  claim4_tenths_resolution minOracle minOracle_valid initState

/-- Claim C5: under any oracle respecting the sampling contract, the record
count is drawn from [10, 20] as the very first draw and exactly once (the
range `10..=20` appears exactly once in the request trace), the loop prints
one data line per record, and the number of data lines is in [10, 20]. -/
theorem claim5_record_count (g : Oracle) (hg : Oracle.Valid g) :
    ∃ (lines : List String) (s2 : GenState),
      mainRun g = some (header :: lines, s2) ∧
      10 ≤ g 0 countReq ∧ g 0 countReq ≤ 20 ∧
      lines.length = (g 0 countReq).toNat ∧
      10 ≤ lines.length ∧ lines.length ≤ 20 ∧
      s2.trace.count countReq = 1 := by
  obtain ⟨lines, s2, ms, hrun, hn1, hn2, hlen, _, _, htrace, _⟩ := mainRun_spec g hg
  have hnot : countReq ∉ (ms.map fun m => recReqs (maxDay m)).flatten := by
    simp only [List.mem_flatten, List.mem_map, not_exists, not_and]
    rintro l ⟨m, _, rfl⟩
    simp [recReqs, idxReq, tempReq, pressReq, yearReq, monthReq, dayReq, countReq,
      RandRange.mk.injEq]
  refine ⟨lines, s2, hrun, hn1, hn2, hlen, by omega, by omega, ?_⟩
  rw [htrace, List.count_cons_self, List.count_eq_zero.mpr hnot]

theorem claim5_witness :
    ∃ (lines : List String) (s2 : GenState),
      mainRun minOracle = some (header :: lines, s2) ∧
      10 ≤ minOracle 0 countReq ∧ minOracle 0 countReq ≤ 20 ∧
      lines.length = (minOracle 0 countReq).toNat ∧
      10 ≤ lines.length ∧ lines.length ≤ 20 ∧
      s2.trace.count countReq = 1 :=
  claim5_record_count minOracle minOracle_valid

/-- Claim C6: under any oracle respecting the sampling contract, the first
output line is the fixed literal `Date,Station,Temperature,Pressure` and
every data line matches the anchored pattern
`\\d{4}-\\d{2}-\\d{2},Station[A-E],-?\\d+\\.\\d,\\d+\\.\\d`. -/
theorem claim6_output_format (g : Oracle) (hg : Oracle.Valid g) :
    ∃ (lines : List String) (s2 : GenState),
      mainRun g = some (header :: lines, s2) ∧
      header = "Date,Station,Temperature,Pressure" ∧
      ∀ l ∈ lines, matchesPattern l := by
  obtain ⟨lines, s2, _, hrun, _, _, _, _, _, _, hgood⟩ := mainRun_spec g hg
  exact ⟨lines, s2, hrun, rfl, fun l hl => goodLine_matches l (hgood l hl)⟩

theorem claim6_witness :
    ∃ (lines : List String) (s2 : GenState),
      mainRun minOracle = some (header :: lines, s2) ∧
      header = "Date,Station,Temperature,Pressure" ∧
      ∀ l ∈ lines, matchesPattern l :=
  claim6_output_format minOracle minOracle_valid

/-- Claim C7: generation is a function of the randomness capability alone:
two runs driven by oracles that answer every draw identically produce
identical output (there is no hidden source of nondeterminism). -/
theorem claim7_determinism (g1 g2 : Oracle) (h : ∀ k r, g1 k r = g2 k r) :
    mainRun g1 = mainRun g2 := by
  have hg : g1 = g2 := funext fun k => funext fun r => h k r
  rw [hg]

theorem claim7_witness : mainRun minOracle = mainRun minOracle :=
  claim7_determinism minOracle minOracle (fun _ _ => rfl)

/-- Claim C8: `to_csv_line` is a pure function of the record's four fields:
two records whose fields agree serialize to the same text, so serializing
the same record twice yields the same text both times. -/
theorem claim8_serialization_pure (r1 r2 : WeatherRecord)
    (hdate : r1.date = r2.date) (hst : r1.station = r2.station)
    (ht : r1.temperature = r2.temperature) (hp : r1.pressure = r2.pressure) :
    r1.to_csv_line = r2.to_csv_line := by
  simp only [WeatherRecord.to_csv_line, hdate, hst, ht, hp]

theorem claim8_witness :
    WeatherRecord.to_csv_line ⟨"2020-01-01", StationType.StationA, -100, 9800⟩ =
      WeatherRecord.to_csv_line ⟨"2020-01-01", StationType.StationA, -100, 9800⟩ :=
  claim8_serialization_pure _ _ rfl rfl rfl rfl

/-- Claim C9: under any oracle respecting the sampling contract the program
never takes a failure path: the run succeeds, every requested range is
nonempty (`lo ≤ upper` at every call site, day ranges included), and for
every month in [1, 12] the `max_day` fallback arm is unreachable (a listed
arm applies and already gives the program's value). -/
theorem claim9_no_failure_path (g : Oracle) (hg : Oracle.Valid g) :
    ∃ (out : List String) (s2 : GenState),
      mainRun g = some (out, s2) ∧
      (∀ r ∈ s2.trace, r.lo ≤ r.upper) ∧
      ∀ m : Int, 1 ≤ m → m ≤ 12 → maxDayListed m = some (maxDay m) := by
  obtain ⟨lines, s2, ms, hrun, _, _, _, _, _, htrace, _⟩ := mainRun_spec g hg
  refine ⟨header :: lines, s2, hrun, ?_, ?_⟩
  · intro r hr
    rw [htrace] at hr
    rcases List.mem_cons.mp hr with rfl | hmem
    · decide
    · rw [List.mem_flatten] at hmem
      obtain ⟨l, hl, hrl⟩ := hmem
      rw [List.mem_map] at hl
      obtain ⟨m, hmms, rfl⟩ := hl
      simp only [recReqs, List.mem_cons, List.not_mem_nil, or_false] at hrl
      rcases hrl with rfl | rfl | rfl | rfl | rfl | rfl
      · decide
      · decide
      · decide
      · decide
      · decide
      · have := maxDay_ge m
        simp only [dayReq, RandRange.upper]
        norm_num
        linarith
  · intro m h1 h2
    interval_cases m <;> decide

theorem claim9_witness :
    ∃ (out : List String) (s2 : GenState),
      mainRun minOracle = some (out, s2) ∧
      (∀ r ∈ s2.trace, r.lo ≤ r.upper) ∧
      ∀ m : Int, 1 ≤ m → m ≤ 12 → maxDayListed m = some (maxDay m) :=
  claim9_no_failure_path minOracle minOracle_valid

/-- Claim C10: under any oracle respecting the sampling contract, the draws
happen in the fixed order: record count first, then for each record the
station index, the temperature, the pressure, the year, the month and the
day (the date components last, although the date is the first CSV field);
the station index is the only half-open request, over [0, 5) whose largest
value is 4, and every other request is a closed range. -/
theorem claim10_draw_order (g : Oracle) (hg : Oracle.Valid g) :
    ∃ (lines : List String) (s2 : GenState) (ms : List Int),
      mainRun g = some (header :: lines, s2) ∧
      ms.length = (g 0 countReq).toNat ∧
      (∀ m ∈ ms, 1 ≤ m ∧ m ≤ 12) ∧
      s2.trace = (⟨10, 20, true⟩ : RandRange) ::
        (ms.map fun m =>
          [(⟨0, 5, false⟩ : RandRange), ⟨-100, 400, true⟩, ⟨9800, 10500, true⟩,
            ⟨2020, 2025, true⟩, ⟨1, 12, true⟩, ⟨1, maxDay m, true⟩]).flatten ∧
      (∀ r ∈ s2.trace, r.inclusive = false → r = ⟨0, 5, false⟩) ∧
      (⟨0, 5, false⟩ : RandRange).upper = 4 := by
  obtain ⟨lines, s2, ms, hrun, _, _, _, hmslen, hmsvals, htrace, _⟩ := mainRun_spec g hg
  refine ⟨lines, s2, ms, hrun, hmslen, hmsvals, ?_, ?_, by decide⟩
  · simpa [recReqs, countReq, idxReq, tempReq, pressReq, yearReq, monthReq, dayReq]
      using htrace
  · intro r hr
    rw [htrace] at hr
    rcases List.mem_cons.mp hr with rfl | hmem
    · intro hfalse
      exact absurd hfalse (by decide)
    · rw [List.mem_flatten] at hmem
      obtain ⟨l, hl, hrl⟩ := hmem
      rw [List.mem_map] at hl
      obtain ⟨m, hmms, rfl⟩ := hl
      simp only [recReqs, List.mem_cons, List.not_mem_nil, or_false] at hrl
      rcases hrl with rfl | rfl | rfl | rfl | rfl | rfl
      · intro _
        simp [idxReq]
      · intro hfalse
        exact absurd hfalse (by decide)
      · intro hfalse
        exact absurd hfalse (by decide)
      · intro hfalse
        exact absurd hfalse (by decide)
      · intro hfalse
        exact absurd hfalse (by decide)
      · intro hfalse
        exact absurd hfalse (by simp [dayReq])

theorem claim10_witness :
    ∃ (lines : List String) (s2 : GenState) (ms : List Int),
      mainRun minOracle = some (header :: lines, s2) ∧
      ms.length = (minOracle 0 countReq).toNat ∧
      (∀ m ∈ ms, 1 ≤ m ∧ m ≤ 12) ∧
      s2.trace = (⟨10, 20, true⟩ : RandRange) ::
        (ms.map fun m =>
          [(⟨0, 5, false⟩ : RandRange), ⟨-100, 400, true⟩, ⟨9800, 10500, true⟩,
            ⟨2020, 2025, true⟩, ⟨1, 12, true⟩, ⟨1, maxDay m, true⟩]).flatten ∧
      (∀ r ∈ s2.trace, r.inclusive = false → r = ⟨0, 5, false⟩) ∧
      (⟨0, 5, false⟩ : RandRange).upper = 4 :=
  claim10_draw_order minOracle minOracle_valid

end Weather
